import Mathlib

/-!
Verification of the generation-pipeline orchestrator of a multi-stage
content-generation frontend (the useGeneration hook and the CutsPreview
component).  The definitions below are a shallow embedding of the
TypeScript source: phases, the session state record, the diff engine
inside the confirm action, the streamed progress-record dispatch of
connectSSE, the restore-from-history phase derivation, the image-swap
helper of the cuts screen, and the AbortController bookkeeping.  JS
truthiness of optional strings (empty string is falsy) and of optional
arrays (any non-null array, even empty, is truthy) is modelled
explicitly.  Stream input is modelled at the decoded-record level: each
record is one JSON object already parsed from a data line.
-/

/-- Phase union type of the hook (source: Phase). -/
inductive Phase where
  | idle
  | script_review
  | running
  | cuts_review
  | composing
  | videos_review
  | voices_review
  | transition_edit
  | finalizing
  | complete
  | error
deriving DecidableEq, Repr

/-- One scene of a script (source: ScriptScene). -/
structure ScriptScene where
  scene_id : Nat
  text : String
  image_prompt : String
  duration_sec : Nat
deriving DecidableEq, Repr

/-- A script: title plus ordered scenes (source: Script). -/
structure Script where
  title : String
  scenes : List ScriptScene
deriving DecidableEq, Repr

/-- Image artifact keyed by scene_id (source: CutImage). -/
structure CutImage where
  scene_id : Nat
  imageUrl : String
deriving DecidableEq, Repr

/-- Video artifact keyed by scene_id (source: VideoClip). -/
structure VideoClip where
  scene_id : Nat
  videoUrl : String
deriving DecidableEq, Repr

/-- Voice artifact keyed by scene_id (source: VoiceClip). -/
structure VoiceClip where
  scene_id : Nat
  text : String
  voiceUrl : String
deriving DecidableEq, Repr

/-- Per-gap transition setting (source: TransitionSetting). -/
structure TransitionSetting where
  audioGap : Nat
deriving DecidableEq, Repr

/-- One decoded stream record: the JSON object parsed from a data line of
the progress stream.  Fields that the dispatch in connectSSE reads are
included; the source stores the very same object into progress after
casting it to its ProgressEvent interface, so this one type also plays
the role of ProgressEvent. -/
structure RawRecord where
  status : String
  videoUrl : Option String
  detail : Option String
  images : List CutImage
  videos : List VideoClip
  voices : List VoiceClip
  step : Nat
  stepName : String
  totalSteps : Nat
deriving DecidableEq, Repr

/-- Session state of one generation run (source: GenerationState). -/
structure GenerationState where
  phase : Phase
  runId : Option String
  script : Option Script
  originalScript : Option Script
  images : Option (List CutImage)
  videos : Option (List VideoClip)
  voices : Option (List VoiceClip)
  transitions : Option (List TransitionSetting)
  progress : Option RawRecord
  videoUrl : Option String
  error : Option String
deriving DecidableEq, Repr

/-- Initial session state (source: INITIAL_STATE). -/
def INITIAL_STATE : GenerationState :=
  { phase := Phase.idle
    runId := none
    script := none
    originalScript := none
    images := none
    videos := none
    voices := none
    transitions := none
    progress := none
    videoUrl := none
    error := none }

/-- JS truthiness of an optional string: null/undefined and the empty
string are falsy, every other string is truthy. -/
def truthyStr : Option String → Bool
  | none => false
  | some s => !(s == "")

/-- JS short-circuit fallback m || fallback applied to an optional
string: the fallback is used when m is absent or empty. -/
def strOrDefault (fallback : String) : Option String → String
  | none => fallback
  | some s => if s == "" then fallback else s

/-- Diff engine inside confirm (source lines 253 to 265): walk the edited
scenes in order; a scene is pushed when no baseline scene shares its
scene_id or when the baseline scene sharing it has a different
image_prompt. -/
def changedSceneIds (originalScenes editedScenes : List ScriptScene) : List Nat :=
  editedScenes.filterMap fun e =>
    match originalScenes.find? (fun s => s.scene_id == e.scene_id) with
    | none => some e.scene_id
    | some o => if o.image_prompt == e.image_prompt then none else some e.scene_id

/-- Side effects an action can issue: a stage-start request or the
opening of a progress stream. -/
inductive Effect where
  | continueRequest (runId : String) (script : Script) (changed : Option (List Nat))
  | regenerateImagesRequest (runId : String) (instructions : List (Nat × String))
  | openStream (runId : String)
deriving DecidableEq, Repr

/-- Synchronous part of the confirm action (source lines 241 to 295),
up to the point where control passes to the stream: the two consecutive
setState calls of the skip branch are composed into the returned state.
The fetch outcome is a parameter; on a thrown error carrying message m
the catch block stores m with the Unknown-error fallback.  The second
effect-list element openStream records that connectSSE is entered after
a successful fetch. -/
def confirmAction (s : GenerationState) (edited : Script) (fetch : Except String Unit) :
    GenerationState × List Effect :=
  match s.runId with
  | none => (s, [])
  | some runId =>
    let s1 : GenerationState := { s with phase := Phase.running, progress := none }
    match s.originalScript, s.images with
    | some orig, some _ =>
      let ids := changedSceneIds orig.scenes edited.scenes
      if ids.isEmpty then
        ({ s1 with phase := Phase.cuts_review, script := some edited, progress := none }, [])
      else
        match fetch with
        | Except.ok _ =>
          (s1, [Effect.continueRequest runId edited (some ids), Effect.openStream runId])
        | Except.error msg =>
          ({ s1 with phase := Phase.error, error := some (strOrDefault ("Unknown error") (some msg)) },
            [Effect.continueRequest runId edited (some ids)])
    | _, _ =>
      match fetch with
      | Except.ok _ =>
        (s1, [Effect.continueRequest runId edited none, Effect.openStream runId])
      | Except.error msg =>
        ({ s1 with phase := Phase.error, error := some (strOrDefault ("Unknown error") (some msg)) },
          [Effect.continueRequest runId edited none])

/-- C1: the changed-scene-id set computed by confirm contains an id
exactly when some edited scene carries that id and either no baseline
scene shares the id or the baseline scene found for it has a different
image_prompt; consequently, under unique edited scene ids, a scene whose
image_prompt matches its baseline scene is never flagged, whatever
happened to its text or duration_sec. -/
theorem confirm_changed_ids_exact (originalScenes editedScenes : List ScriptScene) :
    (∀ id, id ∈ changedSceneIds originalScenes editedScenes ↔
      ∃ e, e ∈ editedScenes ∧ e.scene_id = id ∧
        ∀ o, originalScenes.find? (fun s => s.scene_id == e.scene_id) = some o →
          o.image_prompt ≠ e.image_prompt) ∧
    ((editedScenes.map (fun e => e.scene_id)).Nodup →
      ∀ e o, e ∈ editedScenes →
        originalScenes.find? (fun s => s.scene_id == e.scene_id) = some o →
        o.image_prompt = e.image_prompt →
        e.scene_id ∉ changedSceneIds originalScenes editedScenes) := by
  have hmem : ∀ id, id ∈ changedSceneIds originalScenes editedScenes ↔
      ∃ e, e ∈ editedScenes ∧ e.scene_id = id ∧
        ∀ o, originalScenes.find? (fun s => s.scene_id == e.scene_id) = some o →
          o.image_prompt ≠ e.image_prompt := by
    intro id
    simp only [changedSceneIds, List.mem_filterMap]
    constructor
    · rintro ⟨e, he, hfe⟩
      refine ⟨e, he, ?_⟩
      cases hfind : originalScenes.find? (fun s => s.scene_id == e.scene_id) with
      | none =>
        rw [hfind] at hfe
        exact ⟨Option.some.inj hfe, by intro o ho; cases ho⟩
      | some o =>
        rw [hfind] at hfe
        by_cases hp : o.image_prompt = e.image_prompt
        · simp [hp] at hfe
        · refine ⟨?_, ?_⟩
          · have : some e.scene_id = some id := by
              simpa [hp] using hfe
            exact Option.some.inj this
          · intro o2 ho2
            have : o2 = o := (Option.some.inj ho2).symm
            rw [this]
            exact hp
    · rintro ⟨e, he, hid, hall⟩
      refine ⟨e, he, ?_⟩
      cases hfind : originalScenes.find? (fun s => s.scene_id == e.scene_id) with
      | none => simpa using hid
      | some o =>
        have hne := hall o hfind
        simp [hne, hid]
  refine ⟨hmem, ?_⟩
  intro hnodup e o he hfind hp hinmem
  rcases (hmem e.scene_id).mp hinmem with ⟨e2, he2, hid2, hall2⟩
  have : e2 = e := by
    have hinj := List.inj_on_of_nodup_map hnodup
    exact hinj he2 he hid2
  rw [this] at hall2
  exact hall2 o hfind hp

/-- Demonstration inputs for the diff engine: scene 1 changes text and
duration only, scene 2 changes its image_prompt, scene 3 is new. -/
def demoOriginalScenes : List ScriptScene :=
  [{ scene_id := 1, text := "t1", image_prompt := "p1", duration_sec := 3 },
   { scene_id := 2, text := "t2", image_prompt := "p2", duration_sec := 4 }]

def demoEditedScenes : List ScriptScene :=
  [{ scene_id := 1, text := "t1x", image_prompt := "p1", duration_sec := 5 },
   { scene_id := 2, text := "t2", image_prompt := "p2x", duration_sec := 4 },
   { scene_id := 3, text := "t3", image_prompt := "p3", duration_sec := 2 }]

theorem confirm_changed_ids_exact_witness :
    (2 ∈ changedSceneIds demoOriginalScenes demoEditedScenes) ∧
    (1 ∉ changedSceneIds demoOriginalScenes demoEditedScenes) := by
  constructor
  · exact ((confirm_changed_ids_exact demoOriginalScenes demoEditedScenes).1 2).mpr
      ⟨demoEditedScenes.get ⟨1, by decide⟩, by decide, by decide, by decide⟩
  · exact (confirm_changed_ids_exact demoOriginalScenes demoEditedScenes).2
      (by decide) (demoEditedScenes.get ⟨0, by decide⟩)
      (demoOriginalScenes.get ⟨0, by decide⟩) (by decide) (by decide) (by decide)

/-- C2: with a baseline script and images present and an empty
changed-id set, confirm issues neither a request nor a stream and moves
the session straight to cuts_review with the edited script stored. -/
theorem confirm_unchanged_skips (s : GenerationState) (edited orig : Script)
    (rid : String) (imgs : List CutImage) (fetch : Except String Unit)
    (hrun : s.runId = some rid) (horig : s.originalScript = some orig)
    (himg : s.images = some imgs)
    (hempty : changedSceneIds orig.scenes edited.scenes = []) :
    confirmAction s edited fetch =
      ({ s with phase := Phase.cuts_review, script := some edited, progress := none }, []) := by
  simp [confirmAction, hrun, horig, himg, hempty]

def demoScript : Script :=
  { title := "demo", scenes := demoOriginalScenes }

def demoEditedSameScript : Script :=
  { title := "demo2"
    scenes :=
      [{ scene_id := 1, text := "t1y", image_prompt := "p1", duration_sec := 6 },
       { scene_id := 2, text := "t2", image_prompt := "p2", duration_sec := 4 }] }

def demoImages : List CutImage :=
  [{ scene_id := 1, imageUrl := "u1" }, { scene_id := 2, imageUrl := "u2" }]

def demoSessionState : GenerationState :=
  { INITIAL_STATE with
    phase := Phase.script_review
    runId := some ("run-1")
    script := some demoScript
    originalScript := some demoScript
    images := some demoImages }

theorem confirm_unchanged_skips_witness :
    confirmAction demoSessionState demoEditedSameScript (Except.ok ()) =
      ({ demoSessionState with
          phase := Phase.cuts_review
          script := some demoEditedSameScript
          progress := none }, []) :=
  confirm_unchanged_skips demoSessionState demoEditedSameScript demoScript
    ("run-1") demoImages (Except.ok ()) rfl rfl rfl (by decide)

/-- Callback set passed to connectSSE (source: opts).  Each callback is
modelled as the state update it performs. -/
structure Callbacks where
  onImagesReady : Option (List CutImage → GenerationState → GenerationState)
  onVideosReady : Option (List VideoClip → GenerationState → GenerationState)
  onVoicesReady : Option (List VoiceClip → GenerationState → GenerationState)

/-- Empty callback set, as in the finalize action. -/
def noCallbacks : Callbacks :=
  { onImagesReady := none, onVideosReady := none, onVoicesReady := none }

/-- Apply an optional callback, identity when absent. -/
def applyOpt {α : Type} (f : Option (α → GenerationState → GenerationState))
    (x : α) (s : GenerationState) : GenerationState :=
  match f with
  | some g => g x s
  | none => s

/-- A record is terminal for a connection exactly when one of the return
branches of the dispatch in connectSSE (source lines 135 to 167) fires:
a complete record with a truthy videoUrl, a stage-ready record whose
callback was supplied, or an error record. -/
def isTerminal (cbs : Callbacks) (r : RawRecord) : Bool :=
  (r.status == "complete" && truthyStr r.videoUrl) ||
  (r.status == "images_ready" && cbs.onImagesReady.isSome) ||
  (r.status == "videos_ready" && cbs.onVideosReady.isSome) ||
  (r.status == "voices_ready" && cbs.onVoicesReady.isSome) ||
  (r.status == "error")

/-- State effect of one decoded record, following the dispatch order of
connectSSE exactly: complete with truthy videoUrl, images_ready with a
supplied callback, videos_ready, voices_ready, error, and otherwise the
record is stored as the incremental progress event. -/
def processRecord (cbs : Callbacks) (r : RawRecord) (s : GenerationState) : GenerationState :=
  if r.status == "complete" && truthyStr r.videoUrl then
    { s with phase := Phase.complete, videoUrl := r.videoUrl, progress := none }
  else if r.status == "images_ready" && cbs.onImagesReady.isSome then
    applyOpt cbs.onImagesReady r.images s
  else if r.status == "videos_ready" && cbs.onVideosReady.isSome then
    applyOpt cbs.onVideosReady r.videos s
  else if r.status == "voices_ready" && cbs.onVoicesReady.isSome then
    applyOpt cbs.onVoicesReady r.voices s
  else if r.status == "error" then
    { s with phase := Phase.error, error := some (strOrDefault ("Unknown error") r.detail) }
  else
    { s with progress := some r }

/-- Read loop of connectSSE over the decoded records of the stream: each
record is processed in order and a terminal record returns from the
loop, leaving the rest of the stream unconsumed. -/
def processRecords (cbs : Callbacks) : List RawRecord → GenerationState → GenerationState
  | [], s => s
  | r :: rs, s =>
    if isTerminal cbs r then processRecord cbs r s
    else processRecords cbs rs (processRecord cbs r s)

/-- C7: at most one terminal record is honored per connection.  If the
stream consists of terminal-free records, then a terminal record, then
anything, the loop result is those first records processed followed by
that one terminal record; later records never influence the state. -/
theorem connectSSE_single_terminal (cbs : Callbacks) (pre post : List RawRecord)
    (r : RawRecord) (s : GenerationState)
    (hpre : ∀ q ∈ pre, isTerminal cbs q = false) (hr : isTerminal cbs r = true) :
    processRecords cbs (pre ++ r :: post) s = processRecord cbs r (processRecords cbs pre s) := by
  induction pre generalizing s with
  | nil => simp [processRecords, hr]
  | cons q qs ih =>
    have hq : isTerminal cbs q = false := hpre q (by simp)
    have hqs : ∀ q2 ∈ qs, isTerminal cbs q2 = false := by
      intro q2 h2
      exact hpre q2 (by simp [h2])
    have hrec := ih (processRecord cbs q s) hqs
    simp [processRecords, hq, hrec]

/-- Demonstration records for the stream client. -/
def demoProgressRec : RawRecord :=
  { status := "step", videoUrl := none, detail := some ("working")
    images := [], videos := [], voices := []
    step := 2, stepName := "images", totalSteps := 5 }

def demoErrorRec : RawRecord :=
  { status := "error", videoUrl := none, detail := some ("boom")
    images := [], videos := [], voices := []
    step := 2, stepName := "images", totalSteps := 5 }

def demoCompleteNoUrlRec : RawRecord :=
  { status := "complete", videoUrl := none, detail := none
    images := [], videos := [], voices := []
    step := 5, stepName := "final", totalSteps := 5 }

theorem connectSSE_single_terminal_witness :
    processRecords noCallbacks [demoProgressRec, demoErrorRec, demoProgressRec] INITIAL_STATE =
      processRecord noCallbacks demoErrorRec
        (processRecords noCallbacks [demoProgressRec] INITIAL_STATE) :=
  connectSSE_single_terminal noCallbacks [demoProgressRec] [demoProgressRec]
    demoErrorRec INITIAL_STATE (by decide) (by decide)

/-- C10: a complete record with no truthy videoUrl, or a stage-ready
record whose callback was not supplied, is not terminal: it is stored
into progress and the loop keeps reading. -/
theorem connectSSE_nonterminal_stored_as_progress (cbs : Callbacks) (r : RawRecord)
    (s : GenerationState)
    (h : (r.status = "complete" ∧ truthyStr r.videoUrl = false)
       ∨ (r.status = "images_ready" ∧ cbs.onImagesReady = none)
       ∨ (r.status = "videos_ready" ∧ cbs.onVideosReady = none)
       ∨ (r.status = "voices_ready" ∧ cbs.onVoicesReady = none)) :
    processRecord cbs r s = { s with progress := some r } ∧ isTerminal cbs r = false := by
  rcases h with ⟨hst, hv⟩ | ⟨hst, hv⟩ | ⟨hst, hv⟩ | ⟨hst, hv⟩ <;>
    simp [processRecord, isTerminal, hst, hv]

theorem connectSSE_nonterminal_stored_as_progress_witness :
    processRecord noCallbacks demoCompleteNoUrlRec INITIAL_STATE =
      { INITIAL_STATE with progress := some demoCompleteNoUrlRec } ∧
    isTerminal noCallbacks demoCompleteNoUrlRec = false :=
  connectSSE_nonterminal_stored_as_progress noCallbacks demoCompleteNoUrlRec INITIAL_STATE
    (Or.inl ⟨rfl, rfl⟩)

/-- Synchronous part of the regenerateImage action (source lines 398 to
414): the only guard is the presence of runId; when it is present the
phase is set to running and the scoped request is issued regardless of
the current phase, and on a successful fetch the stream is opened. -/
def regenerateImageAction (s : GenerationState) (sceneInstructions : List (Nat × String))
    (fetch : Except String Unit) : GenerationState × List Effect :=
  match s.runId with
  | none => (s, [])
  | some runId =>
    let s1 : GenerationState := { s with phase := Phase.running, progress := none }
    match fetch with
    | Except.ok _ =>
      (s1, [Effect.regenerateImagesRequest runId sceneInstructions, Effect.openStream runId])
    | Except.error msg =>
      ({ s1 with phase := Phase.error, error := some (strOrDefault ("Unknown error") (some msg)) },
        [Effect.regenerateImagesRequest runId sceneInstructions])

/-- Session state in phase voices_review with an active runId, as left
by a completed voice stage. -/
def demoVoicesReviewState : GenerationState :=
  { INITIAL_STATE with
    phase := Phase.voices_review
    runId := some ("run-1")
    script := some demoScript
    originalScript := some demoScript
    images := some demoImages
    videos := some [{ scene_id := 1, videoUrl := "v1" }]
    voices := some [{ scene_id := 1, text := "t1", voiceUrl := "w1" }] }

theorem regenerateImage_voices_review_cex :
    ((regenerateImageAction demoVoicesReviewState [(1, "brighter")] (Except.ok ())).1.phase =
      Phase.running) ∧
    ((regenerateImageAction demoVoicesReviewState [(1, "brighter")] (Except.ok ())).2 ≠ []) := by
  decide

/-- C5 (amended): the runId guard is the only validation performed by
regenerateImage.  With runId absent the action is a no-op issuing
nothing; with runId present the action proceeds regardless of phase,
setting the phase to running and issuing the scoped image request plus
the stream. -/
theorem regenerateImage_runId_guard (s : GenerationState)
    (sceneInstructions : List (Nat × String)) (fetch : Except String Unit) :
    (s.runId = none → regenerateImageAction s sceneInstructions fetch = (s, [])) ∧
    (∀ rid, s.runId = some rid → fetch = Except.ok () →
      regenerateImageAction s sceneInstructions fetch =
        ({ s with phase := Phase.running, progress := none },
          [Effect.regenerateImagesRequest rid sceneInstructions, Effect.openStream rid])) := by
  constructor
  · intro h
    simp [regenerateImageAction, h]
  · intro rid hrid hfetch
    simp [regenerateImageAction, hrid, hfetch]

theorem regenerateImage_runId_guard_witness :
    (regenerateImageAction INITIAL_STATE [(1, "x")] (Except.ok ()) = (INITIAL_STATE, [])) ∧
    (regenerateImageAction demoVoicesReviewState [(1, "x")] (Except.ok ()) =
      ({ demoVoicesReviewState with phase := Phase.running, progress := none },
        [Effect.regenerateImagesRequest ("run-1") [(1, "x")], Effect.openStream ("run-1")])) :=
  ⟨(regenerateImage_runId_guard INITIAL_STATE [(1, "x")] (Except.ok ())).1 rfl,
   (regenerateImage_runId_guard demoVoicesReviewState [(1, "x")] (Except.ok ())).2
     ("run-1") rfl rfl⟩

/-- State update performed by the onImagesReady callback that
regenerateImage passes to connectSSE (source lines 416 to 425): the
received images replace the stored images wholesale and the phase
returns to cuts_review. -/
def regenerateOnImagesReady (images : List CutImage) (s : GenerationState) : GenerationState :=
  { s with phase := Phase.cuts_review, images := some images, progress := none }

/-- Modelled from the spec: the backend regenerate-images stage executor
is not part of the frontend sources.  Per the spec it re-runs the image
stage scoped to the given scene_ids with per-scene instructions and, on
completion, reports an image set in which only those scene_ids carry
fresh artifacts; every other scene keeps its previous artifact. -/
def scopedImageStage (prev : List CutImage) (sceneInstructions : List (Nat × String))
    (fresh : Nat → String) : List CutImage :=
  prev.map fun img =>
    if sceneInstructions.any (fun p => p.1 == img.scene_id) then
      { img with imageUrl := fresh img.scene_id }
    else img

lemma find_map_of_pred_preserving {α : Type} (p : α → Bool) (f : α → α) (l : List α)
    (hpres : ∀ a ∈ l, p (f a) = p a) (hfix : ∀ a ∈ l, p a = true → f a = a) :
    (l.map f).find? p = l.find? p := by
  induction l with
  | nil => rfl
  | cons a l ih =>
    rw [List.map_cons]
    cases hpa : p a with
    | true =>
      have hpf : p (f a) = true := (hpres a (by simp)).trans hpa
      rw [List.find?_cons_of_pos _ hpf, List.find?_cons_of_pos _ hpa, hfix a (by simp) hpa]
    | false =>
      have hpf : p (f a) = false := (hpres a (by simp)).trans hpa
      rw [List.find?_cons_of_neg _ (by simp [hpf]), List.find?_cons_of_neg _ (by simp [hpa])]
      exact ih (fun x hx => hpres x (by simp [hx])) (fun x hx => hfix x (by simp [hx]))

lemma scopedImageStage_find_unselected (prev : List CutImage)
    (sceneInstructions : List (Nat × String)) (fresh : Nat → String) (id : Nat)
    (hid : ∀ p ∈ sceneInstructions, p.1 ≠ id) :
    (scopedImageStage prev sceneInstructions fresh).find? (fun img => img.scene_id == id) =
      prev.find? (fun img => img.scene_id == id) := by
  refine find_map_of_pred_preserving _ _ prev ?_ ?_
  · intro a _
    by_cases hsel : sceneInstructions.any (fun p => p.1 == a.scene_id) = true
    · simp [hsel]
    · simp only [Bool.not_eq_true] at hsel
      simp [hsel]
  · intro a _ hpa
    have haid : a.scene_id = id := by simpa using hpa
    have hsel : sceneInstructions.any (fun p => p.1 == a.scene_id) = false := by
      simp only [List.any_eq_false]
      intro p hp
      intro hcontra
      have : p.1 = a.scene_id := by simpa using hcontra
      exact hid p hp (this.trans haid)
    simp [hsel]

/-- C9: after a scoped regeneration completes, the session stores the
reported image set, and the artifact looked up for any scene_id outside
the instruction map is exactly the artifact it had before. -/
theorem regenerateImage_scoped_frame (s : GenerationState) (prev : List CutImage)
    (sceneInstructions : List (Nat × String)) (fresh : Nat → String) (id : Nat)
    (hprev : s.images = some prev) (hid : ∀ p ∈ sceneInstructions, p.1 ≠ id) :
    ((regenerateOnImagesReady (scopedImageStage prev sceneInstructions fresh) s).images =
      some (scopedImageStage prev sceneInstructions fresh)) ∧
    ((regenerateOnImagesReady (scopedImageStage prev sceneInstructions fresh) s).phase =
      Phase.cuts_review) ∧
    ((scopedImageStage prev sceneInstructions fresh).find? (fun img => img.scene_id == id) =
      (s.images.getD []).find? (fun img => img.scene_id == id)) := by
  refine ⟨rfl, rfl, ?_⟩
  rw [hprev]
  exact scopedImageStage_find_unselected prev sceneInstructions fresh id hid

theorem regenerateImage_scoped_frame_witness :
    ((regenerateOnImagesReady
        (scopedImageStage demoImages [(1, "brighter")] (fun _ => "fresh"))
        demoSessionState).images =
      some (scopedImageStage demoImages [(1, "brighter")] (fun _ => "fresh"))) ∧
    ((regenerateOnImagesReady
        (scopedImageStage demoImages [(1, "brighter")] (fun _ => "fresh"))
        demoSessionState).phase = Phase.cuts_review) ∧
    ((scopedImageStage demoImages [(1, "brighter")] (fun _ => "fresh")).find?
        (fun img => img.scene_id == 2) =
      (demoSessionState.images.getD []).find? (fun img => img.scene_id == 2)) :=
  regenerateImage_scoped_frame demoSessionState demoImages [(1, "brighter")]
    (fun _ => "fresh") 2 rfl (by decide)

/-- Component state of the cuts screen (source: CutsPreview).  The
imageOrder entry at position i is the scene_id of the image displayed at
narrative position i. -/
structure CutsState where
  imageOrder : List Nat
  selectedScenes : List Nat
  scenePrompts : List (Nat × String)
deriving DecidableEq, Repr

/-- Image swap of the cuts screen (source lines 73 to 81): target is
index plus direction; out-of-range targets leave the order untouched,
otherwise the entries at index and target are exchanged. -/
def swapImages (imageOrder : List Nat) (index : Nat) (direction : Int) : List Nat :=
  if (index : Int) + direction < 0 ∨ (imageOrder.length : Int) ≤ (index : Int) + direction then
    imageOrder
  else
    (imageOrder.set index (imageOrder.getD ((index : Int) + direction).toNat 0)).set
      ((index : Int) + direction).toNat (imageOrder.getD index 0)

/-- The swap handler touches only the imageOrder of the component; the hook
session state is not an input of the update at all. -/
def swapImagesAction (g : GenerationState) (c : CutsState) (index : Nat) (direction : Int) :
    GenerationState × CutsState :=
  (g, { c with imageOrder := swapImages c.imageOrder index direction })

lemma set_adjacent_swap_perm (l : List Nat) (j : Nat) (h : j + 1 < l.length) :
    ((l.set j (l.getD (j + 1) 0)).set (j + 1) (l.getD j 0)).Perm l := by
  induction j generalizing l with
  | zero =>
    match l, h with
    | a :: b :: tl, _ =>
      show (b :: a :: tl).Perm (a :: b :: tl)
      exact List.Perm.swap a b tl
  | succ j ih =>
    match l, h with
    | a :: tl, h =>
      have htl : j + 1 < tl.length := by
        simpa [Nat.succ_lt_succ_iff] using h
      show (a :: ((tl.set j (tl.getD (j + 1) 0)).set (j + 1) (tl.getD j 0))).Perm (a :: tl)
      exact List.Perm.cons a (ih tl htl)

lemma swapImages_perm (l : List Nat) (index : Nat) (direction : Int)
    (hindex : index < l.length) (hdir : direction = -1 ∨ direction = 1) :
    (swapImages l index direction).Perm l := by
  unfold swapImages
  split
  · exact List.Perm.refl l
  · rename_i hguard
    push_neg at hguard
    obtain ⟨hge, hlt⟩ := hguard
    rcases hdir with hdir | hdir <;> subst hdir
    · obtain ⟨j, rfl⟩ : ∃ j, index = j + 1 := ⟨index - 1, by omega⟩
      have htn : (((j + 1 : Nat) : Int) + (-1)).toNat = j := by omega
      rw [htn]
      have hcomm : ((l.set (j + 1) (l.getD j 0)).set j (l.getD (j + 1) 0)) =
          ((l.set j (l.getD (j + 1) 0)).set (j + 1) (l.getD j 0)) :=
        List.set_comm _ _ l (by omega)
      rw [hcomm]
      exact set_adjacent_swap_perm l j (by omega)
    · have htn : ((index : Int) + 1).toNat = index + 1 := by omega
      rw [htn]
      exact set_adjacent_swap_perm l index (by omega)

/-- C8: under a valid index and an adjacent direction, the swap changes
only the display order: the session state (script, images, videos,
voices and all) is returned untouched, and the new order remains a
permutation of the scene_ids present in the stored images. -/
theorem swapImages_frame_and_perm (g : GenerationState) (c : CutsState)
    (index : Nat) (direction : Int) (imgs : List CutImage)
    (_himgs : g.images = some imgs)
    (hperm : c.imageOrder.Perm (imgs.map (fun img => img.scene_id)))
    (hindex : index < c.imageOrder.length)
    (hdir : direction = -1 ∨ direction = 1) :
    ((swapImagesAction g c index direction).1 = g) ∧
    ((swapImagesAction g c index direction).2.imageOrder).Perm
      (imgs.map (fun img => img.scene_id)) := by
  refine ⟨rfl, ?_⟩
  exact (swapImages_perm c.imageOrder index direction hindex hdir).trans hperm

def demoCutsState : CutsState :=
  { imageOrder := [1, 2], selectedScenes := [], scenePrompts := [] }

theorem swapImages_frame_and_perm_witness :
    ((swapImagesAction demoSessionState demoCutsState 0 1).1 = demoSessionState) ∧
    ((swapImagesAction demoSessionState demoCutsState 0 1).2.imageOrder).Perm
      (demoImages.map (fun img => img.scene_id)) :=
  swapImages_frame_and_perm demoSessionState demoCutsState 0 1 demoImages
    rfl (by decide) (by decide) (Or.inr rfl)

/-- Persisted artifact bundle returned by the restore endpoint, as
consumed by restoreFromHistory. -/
structure Bundle where
  run_id : String
  script : Option Script
  images : Option (List CutImage)
  videos : Option (List VideoClip)
  voices : Option (List VoiceClip)
  videoUrl : Option String
deriving DecidableEq, Repr

/-- Session state built by the success path of restoreFromHistory
(source lines 650 to 675).  The default phase of the literal is
complete; originalScript is the restored script exactly when images is
non-null (a JS array, even empty, is truthy); the phase derivation then
checks videoUrl truthiness, then non-empty voices, videos and images,
then a non-null script. -/
def restoredState (d : Bundle) : GenerationState :=
  { INITIAL_STATE with
    runId := some d.run_id
    script := d.script
    originalScript := if d.images.isSome then d.script else none
    images := d.images
    videos := d.videos
    voices := d.voices
    videoUrl := d.videoUrl
    phase :=
      if truthyStr d.videoUrl then Phase.complete
      else if (d.voices.getD []).length > 0 then Phase.voices_review
      else if (d.videos.getD []).length > 0 then Phase.videos_review
      else if (d.images.getD []).length > 0 then Phase.cuts_review
      else if d.script.isSome then Phase.script_review
      else Phase.complete }

/-- Bundle carrying no artifact at all. -/
def emptyBundle : Bundle :=
  { run_id := "run-empty", script := none, images := none, videos := none
    voices := none, videoUrl := none }

theorem restore_empty_bundle_phase_cex :
    (restoredState emptyBundle).phase = Phase.complete ∧
    Phase.complete ≠ Phase.idle := by
  decide

/-- C4 (amended): the phase derivation of restoreFromHistory walks the
pipeline backward with truthiness checks: truthy videoUrl gives
complete; else non-empty voices gives voices_review; else non-empty
videos gives videos_review; else non-empty images gives cuts_review;
else a non-null script gives script_review; else the phase stays at the
default of the literal, complete, not idle.  originalScript equals the
restored script exactly when images is non-null. -/
theorem restore_phase_derivation (d : Bundle) :
    (truthyStr d.videoUrl = true → (restoredState d).phase = Phase.complete) ∧
    (truthyStr d.videoUrl = false → d.voices.getD [] ≠ [] →
      (restoredState d).phase = Phase.voices_review) ∧
    (truthyStr d.videoUrl = false → d.voices.getD [] = [] → d.videos.getD [] ≠ [] →
      (restoredState d).phase = Phase.videos_review) ∧
    (truthyStr d.videoUrl = false → d.voices.getD [] = [] → d.videos.getD [] = [] →
      d.images.getD [] ≠ [] → (restoredState d).phase = Phase.cuts_review) ∧
    (truthyStr d.videoUrl = false → d.voices.getD [] = [] → d.videos.getD [] = [] →
      d.images.getD [] = [] → d.script.isSome = true →
      (restoredState d).phase = Phase.script_review) ∧
    (truthyStr d.videoUrl = false → d.voices.getD [] = [] → d.videos.getD [] = [] →
      d.images.getD [] = [] → d.script = none →
      (restoredState d).phase = Phase.complete) ∧
    ((restoredState d).originalScript = if d.images.isSome then d.script else none) := by
  refine ⟨?_, ?_, ?_, ?_, ?_, ?_, ?_⟩
  · intro h
    simp [restoredState, h]
  · intro h hv
    have : (d.voices.getD []).length > 0 := List.length_pos.mpr hv
    simp [restoredState, h, this]
  · intro h hv hvd
    have h1 : ¬ (d.voices.getD []).length > 0 := by simp [hv]
    have h2 : (d.videos.getD []).length > 0 := List.length_pos.mpr hvd
    simp [restoredState, h, h1, h2]
  · intro h hv hvd hi
    have h1 : ¬ (d.voices.getD []).length > 0 := by simp [hv]
    have h2 : ¬ (d.videos.getD []).length > 0 := by simp [hvd]
    have h3 : (d.images.getD []).length > 0 := List.length_pos.mpr hi
    simp [restoredState, h, h1, h2, h3]
  · intro h hv hvd hi hs
    have h1 : ¬ (d.voices.getD []).length > 0 := by simp [hv]
    have h2 : ¬ (d.videos.getD []).length > 0 := by simp [hvd]
    have h3 : ¬ (d.images.getD []).length > 0 := by simp [hi]
    simp [restoredState, h, h1, h2, h3, hs]
  · intro h hv hvd hi hs
    have h1 : ¬ (d.voices.getD []).length > 0 := by simp [hv]
    have h2 : ¬ (d.videos.getD []).length > 0 := by simp [hvd]
    have h3 : ¬ (d.images.getD []).length > 0 := by simp [hi]
    simp [restoredState, h, h1, h2, h3, hs]
  · rfl

/-- Bundle holding a script only, and one holding every artifact. -/
def scriptOnlyBundle : Bundle :=
  { run_id := "run-s", script := some demoScript, images := none, videos := none
    voices := none, videoUrl := none }

def fullBundle : Bundle :=
  { run_id := "run-f", script := some demoScript, images := some demoImages
    videos := some [{ scene_id := 1, videoUrl := "v1" }]
    voices := some [{ scene_id := 1, text := "t1", voiceUrl := "w1" }]
    videoUrl := some ("final.mp4") }

theorem restore_phase_derivation_witness :
    (restoredState scriptOnlyBundle).phase = Phase.script_review ∧
    (restoredState fullBundle).phase = Phase.complete ∧
    (restoredState fullBundle).originalScript = some demoScript :=
  ⟨(restore_phase_derivation scriptOnlyBundle).2.2.2.2.1 rfl rfl rfl rfl rfl,
   (restore_phase_derivation fullBundle).1 rfl,
   (restore_phase_derivation fullBundle).2.2.2.2.2.2.trans (by decide)⟩

/-- Bookkeeping of the single abort ref of the hook: the held controller
(as a numeric handle), the set of controllers on which abort was called,
and a counter supplying fresh handles. -/
structure AbortState where
  held : Option Nat
  aborted : List Nat
  next : Nat
deriving DecidableEq, Repr

/-- Opening of a connection by connectSSE (source lines 103 to 104): a
fresh controller is created and stored into the ref.  No abort call
happens here, and none of the streamed actions (confirm, compose,
generateVoices, regenerateImage, regenerateVideo, regenerateVoices,
finalize) performs one before calling connectSSE. -/
def connectSSEOpen (a : AbortState) : AbortState :=
  { a with held := some a.next, next := a.next + 1 }

/-- The abort call abortRef.current?.abort() as performed by start,
reset, goToScriptReview, goToCutsReview, goToVideosReview and
goToVoicesReview. -/
def abortHeld (a : AbortState) : AbortState :=
  match a.held with
  | some h => { a with aborted := h :: a.aborted }
  | none => a

theorem stream_supersede_no_cancel_cex :
    ((connectSSEOpen { held := some 0, aborted := [], next := 1 }).aborted = []) ∧
    ((connectSSEOpen { held := some 0, aborted := [], next := 1 }).held = some 1) := by
  decide

/-- C3 (amended): issuing a new streamed request does not cancel the
previously held handle; connectSSE merely replaces the held handle with
a fresh one, leaving the aborted set unchanged, so the superseded
stream stays live and its callbacks are not prevented from mutating
session state.  The held handle is aborted only by start, reset and the
go-to navigation actions, modelled by abortHeld. -/
theorem connectSSE_replaces_handle (a : AbortState) :
    ((connectSSEOpen a).aborted = a.aborted) ∧
    ((connectSSEOpen a).held = some a.next) ∧
    (∀ h, a.held = some h → (abortHeld a).aborted = h :: a.aborted) := by
  refine ⟨rfl, rfl, ?_⟩
  intro h hh
  simp [abortHeld, hh]

theorem connectSSE_replaces_handle_witness :
    ((connectSSEOpen { held := some 5, aborted := [2], next := 6 }).aborted = [2]) ∧
    ((connectSSEOpen { held := some 5, aborted := [2], next := 6 }).held = some 6) ∧
    ((abortHeld { held := some 5, aborted := [2], next := 6 }).aborted = [5, 2]) :=
  ⟨(connectSSE_replaces_handle { held := some 5, aborted := [2], next := 6 }).1,
   (connectSSE_replaces_handle { held := some 5, aborted := [2], next := 6 }).2.1,
   (connectSSE_replaces_handle { held := some 5, aborted := [2], next := 6 }).2.2 5 rfl⟩

/-- One atomic setState of the hook, as a relation over session states.
Each constructor corresponds to one setState call in the source, with
its stored message or payload as parameters.  Sequencing constraints
between the calls are not imposed, so the relation over-approximates the
states the hook can reach; an invariant proved over it holds a fortiori
of the real call orderings.  The constructors: the initial running
literal of start and restoreFromHistory; the synchronous success update
of start; every catch block (message with Unknown-error fallback); the
phase-running and phase-composing openers; the finalizing opener with
the transitions fallback; the onImagesReady callbacks of confirm and
regenerateImage; the empty-diff skip of confirm; the videos-ready and
voices-ready callbacks; the terminal complete and error records of
connectSSE and its progress fallthrough; reset; the go-to navigation
setters; and the success and failure updates of restoreFromHistory. -/
inductive Step : GenerationState → GenerationState → Prop where
  | startBegin (s : GenerationState) :
      Step s { INITIAL_STATE with phase := Phase.running }
  | startOk (s : GenerationState) (rid : String) (scr : Script) :
      Step s { s with phase := Phase.script_review, runId := some rid, script := some scr }
  | catchError (s : GenerationState) (msg : Option String) :
      Step s { s with
               phase := Phase.error
               error := some (strOrDefault ("Unknown error") msg) }
  | beginRunning (s : GenerationState) :
      Step s { s with phase := Phase.running, progress := none }
  | beginComposing (s : GenerationState) :
      Step s { s with phase := Phase.composing, progress := none }
  | finalizeBegin (s : GenerationState) (tr : Option (List TransitionSetting)) :
      Step s { s with
               phase := Phase.finalizing
               progress := none
               transitions := (match tr with | some t => some t | none => s.transitions) }
  | confirmSkip (s : GenerationState) (edited : Script) :
      Step s { s with phase := Phase.cuts_review, script := some edited, progress := none }
  | confirmImagesReady (s : GenerationState) (edited : Script) (imgs : List CutImage) :
      Step s { s with
               phase := Phase.cuts_review
               script := some edited
               originalScript := some edited
               images := some imgs
               progress := none }
  | regenImagesReady (s : GenerationState) (imgs : List CutImage) :
      Step s { s with phase := Phase.cuts_review, images := some imgs, progress := none }
  | videosReady (s : GenerationState) (vids : List VideoClip) :
      Step s { s with phase := Phase.videos_review, videos := some vids, progress := none }
  | voicesReady (s : GenerationState) (vcs : List VoiceClip) :
      Step s { s with phase := Phase.voices_review, voices := some vcs, progress := none }
  | streamComplete (s : GenerationState) (url : String) (hurl : url ≠ "") :
      Step s { s with phase := Phase.complete, videoUrl := some url, progress := none }
  | streamErrorRecord (s : GenerationState) (detail : Option String) :
      Step s { s with
               phase := Phase.error
               error := some (strOrDefault ("Unknown error") detail) }
  | streamProgress (s : GenerationState) (r : RawRecord) :
      Step s { s with progress := some r }
  | resetAction (s : GenerationState) :
      Step s INITIAL_STATE
  | goToTransitionEdit (s : GenerationState) :
      Step s { s with phase := Phase.transition_edit }
  | goToScriptReview (s : GenerationState) :
      Step s { s with
               phase := Phase.script_review
               progress := none
               originalScript :=
                 (if s.images.isSome then
                   (match s.originalScript with
                    | some o => some o
                    | none => s.script)
                 else none) }
  | goToCutsReview (s : GenerationState) :
      Step s { s with phase := Phase.cuts_review, progress := none }
  | goToVideosReview (s : GenerationState) :
      Step s { s with phase := Phase.videos_review, progress := none }
  | goToVoicesReview (s : GenerationState) :
      Step s { s with phase := Phase.voices_review, progress := none }
  | restoreOk (s : GenerationState) (d : Bundle) :
      Step s (restoredState d)
  | restoreFailed (s : GenerationState) (msg : Option String) :
      Step s { s with
               phase := Phase.error
               error := some (strOrDefault ("復元に失敗しました") msg) }

/-- A session state is reachable when a sequence of setState steps leads
to it from the initial state. -/
def Reach (s : GenerationState) : Prop :=
  Relation.ReflTransGen Step INITIAL_STATE s

lemma restoredState_phase_ne_error (d : Bundle) :
    (restoredState d).phase ≠ Phase.error := by
  simp only [restoredState]
  split
  · simp
  · split
    · simp
    · split
      · simp
      · split
        · simp
        · split <;> simp

theorem reachable_complete_without_url_cex :
    Reach (restoredState emptyBundle) ∧
    (restoredState emptyBundle).phase = Phase.complete ∧
    (restoredState emptyBundle).videoUrl = none := by
  refine ⟨?_, by decide, by decide⟩
  exact Relation.ReflTransGen.single (Step.restoreOk INITIAL_STATE emptyBundle)

/-- C6 (amended): in every reachable session state, phase error implies
a non-null error message.  The other two clauses of the original
invariant fail: restoring an artifact-free bundle reaches phase complete
with a null videoUrl, and videoUrl and error can both be non-null after
an error follows a completed run. -/
theorem reachable_error_has_message (s : GenerationState) (hs : Reach s) :
    s.phase = Phase.error → s.error ≠ none := by
  induction hs with
  | refl =>
    intro h
    exact absurd h (by decide)
  | tail hprev hstep ih =>
    cases hstep with
    | startBegin => intro h; exact absurd h (by decide)
    | startOk rid scr => intro h; simp at h
    | catchError msg => intro h; simp [strOrDefault]
    | beginRunning => intro h; simp at h
    | beginComposing => intro h; simp at h
    | finalizeBegin tr => intro h; simp at h
    | confirmSkip edited => intro h; simp at h
    | confirmImagesReady edited imgs => intro h; simp at h
    | regenImagesReady imgs => intro h; simp at h
    | videosReady vids => intro h; simp at h
    | voicesReady vcs => intro h; simp at h
    | streamComplete url hurl => intro h; simp at h
    | streamErrorRecord detail => intro h; simp [strOrDefault]
    | streamProgress r => intro h; exact ih h
    | resetAction => intro h; exact absurd h (by decide)
    | goToTransitionEdit => intro h; simp at h
    | goToScriptReview => intro h; simp at h
    | goToCutsReview => intro h; simp at h
    | goToVideosReview => intro h; simp at h
    | goToVoicesReview => intro h; simp at h
    | restoreOk d => intro h; exact absurd h (restoredState_phase_ne_error d)
    | restoreFailed msg => intro h; simp [strOrDefault]

theorem reachable_error_has_message_witness :
    ({ INITIAL_STATE with
       phase := Phase.error
       error := some (strOrDefault ("Unknown error") none) } : GenerationState).error ≠
      none :=
  reachable_error_has_message
    { INITIAL_STATE with
      phase := Phase.error
      error := some (strOrDefault ("Unknown error") none) }
    (Relation.ReflTransGen.single (Step.catchError INITIAL_STATE none)) rfl
